import Mathlib

/-!
# Verification of the housekeeper directory-watch core

Shallow embedding of `src/housekeeper/core/watcher.py`,
`src/housekeeper/main.py` (the `cmd_watch` registration loop) and
`src/housekeeper/config/loader.py` (`load_config`), together with proofs
of the spec's claims about them.

Python paths are modelled after `pathlib.PurePosixPath`: a path is an
absoluteness flag plus the list of its components, obtained from the raw
string by splitting on the separator and dropping empty and single-dot
components.  Byte strings are lists of byte values and `bytes.decode()`
is a strict UTF-8 decoder.  Exceptions are modelled explicitly: the
event handler returns the list of callback invocations it performed and
the exception (if any) escaping it.
-/

namespace Housekeeper

/-- A path component / raw path text, as a list of characters
(mirroring Python `str` at the granularity the watcher uses). -/
abbrev Str := List Char

/-- Split a character list on the `/` separator (every separator ends a
component, so `a//b` yields an empty middle component, as in Python's
`str.split`). -/
def splitSlash (s : Str) : List Str :=
  s.foldr
    (fun c acc =>
      if c = '/' then [] :: acc
      else
        match acc with
        | h :: t => (c :: h) :: t
        | [] => [[c]])
    [[]]

/-- Embeds `pathlib.PurePosixPath`: equality of Python paths is equality
of the absoluteness flag and the normalized component list. -/
structure PyPath where
  absolute : Bool
  parts : List Str
deriving DecidableEq, Repr

/-- Embeds `pathlib.Path(s)` (POSIX flavour): a path is absolute iff the
text starts with `/`; its parts are the non-empty, non-`.` components. -/
def parsePath (s : Str) : PyPath :=
  { absolute := s.head? = some '/'
    parts := (splitSlash s).filter (fun c => c ≠ [] ∧ c ≠ ['.']) }

/-- Embeds `PurePath.parent`: drop the last component; the parent of a
path with no components (`/` or `.`) is itself. -/
def PyPath.parent (p : PyPath) : PyPath :=
  if p.parts = [] then p else ⟨p.absolute, p.parts.dropLast⟩

/-- `isWithin r p` holds when `p` lies inside the subtree rooted at `r`
(including `r` itself): this is the set of paths a recursive watch
scheduled on `r` receives raw events for. -/
def isWithin (r p : PyPath) : Bool :=
  r.absolute = p.absolute && r.parts.isPrefixOf p.parts

/-- Strict UTF-8 decoding of a byte list, embedding Python
`bytes.decode()` (default `utf-8`/`strict`): rejects lone continuation
bytes, overlong encodings, surrogates and out-of-range code points. -/
def contByte (b : Nat) : Bool := 0x80 ≤ b && b < 0xC0

/-- Decode a byte list as strict UTF-8; `none` models
`UnicodeDecodeError`. -/
def decodeUtf8 : List Nat → Option Str
  | [] => some []
  | b :: rest =>
    if b < 0x80 then
      (decodeUtf8 rest).map (fun cs => Char.ofNat b :: cs)
    else if b < 0xC2 then none
    else if b ≤ 0xDF then
      match rest with
      | c1 :: rest2 =>
        if contByte c1 then
          (decodeUtf8 rest2).map
            (fun cs => Char.ofNat ((b - 0xC0) * 0x40 + (c1 - 0x80)) :: cs)
        else none
      | [] => none
    else if b ≤ 0xEF then
      match rest with
      | c1 :: c2 :: rest3 =>
        if contByte c1 && contByte c2 then
          let cp := (b - 0xE0) * 0x1000 + (c1 - 0x80) * 0x40 + (c2 - 0x80)
          if cp < 0x800 ∨ (0xD800 ≤ cp ∧ cp ≤ 0xDFFF) then none
          else (decodeUtf8 rest3).map (fun cs => Char.ofNat cp :: cs)
        else none
      | _ => none
    else if b ≤ 0xF4 then
      match rest with
      | c1 :: c2 :: c3 :: rest4 =>
        if contByte c1 && contByte c2 && contByte c3 then
          let cp := (b - 0xF0) * 0x40000 + (c1 - 0x80) * 0x1000 +
            (c2 - 0x80) * 0x40 + (c3 - 0x80)
          if cp < 0x10000 ∨ 0x10FFFF < cp then none
          else (decodeUtf8 rest4).map (fun cs => Char.ofNat cp :: cs)
        else none
      | _ => none
    else none

/-- Embeds `watcher.ItemType`. -/
inductive ItemType
  | FILE
  | DIR
deriving DecidableEq, Repr

/-- The normalized creation event handed to the callback: the created
item's path and its type tag. -/
structure CreationEvent where
  path : PyPath
  itemType : ItemType
deriving DecidableEq, Repr

/-- The raw event's subject path as watchdog may deliver it: either a
`str` or a `bytes` value. -/
inductive RawPath
  | strPath (s : Str)
  | bytesPath (b : List Nat)
deriving DecidableEq, Repr

/-- Embeds watchdog's `FileSystemEvent` as consumed by the handler:
`src_path` plus the `is_directory` flag. -/
structure FileSystemEvent where
  src_path : RawPath
  is_directory : Bool
deriving DecidableEq, Repr

/-- The decode step at the top of `on_created`: a `str` subject path is
used as-is, a `bytes` one goes through `src_path.decode()`; `none`
models the `UnicodeDecodeError` that strict decoding raises. -/
def srcText? (r : RawPath) : Option Str :=
  match r with
  | .strPath s => some s
  | .bytesPath b => decodeUtf8 b

/-- A Python exception escaping the handler. -/
inductive PyErr
  | UnicodeDecodeError
  | CallbackExc (code : Nat)
deriving DecidableEq, Repr

/-- What one call of the handler did: the callback invocations it made,
in order, and the exception (if any) that escaped it. -/
structure DispatchResult where
  calls : List CreationEvent
  exc : Option PyErr
deriving DecidableEq, Repr

/-- Embeds `CreationEventHandler.on_created`.  The callback is modelled
by its effect: `cb ev = none` means it returns normally, `cb ev = some e`
means it raises `e`.  Faithful to the Python body: decode a bytes
`src_path` (an undecodable one raises), parse the path, discard unless
`path.parent == self._watched_dir`, else build the `ItemType` from
`event.is_directory` and invoke `self._on_created(path, item_type)`. -/
def on_created (watched_dir : PyPath) (cb : CreationEvent → Option PyErr)
    (event : FileSystemEvent) : DispatchResult :=
  match srcText? event.src_path with
  | none => ⟨[], some .UnicodeDecodeError⟩
  | some s =>
    let path := parsePath s
    if path.parent ≠ watched_dir then ⟨[], none⟩
    else
      let itemType := if event.is_directory then ItemType.DIR else ItemType.FILE
      ⟨[⟨path, itemType⟩], cb ⟨path, itemType⟩⟩

/-- A registration made by `DirectoryWatcher.watch`: the handler's
watched directory together with the identity of the callback bound to
it (callbacks are identified by an opaque number so that distinct
registrations, even for one path, keep distinct callbacks). -/
structure WatchReg where
  watched_dir : PyPath
  cb : Nat
deriving DecidableEq, Repr

/-- Embeds the state of `DirectoryWatcher`: the handler registrations
accumulated by `observer.schedule` calls and the `_running` flag. -/
structure DirectoryWatcher where
  handlers : List WatchReg
  running : Bool
deriving DecidableEq, Repr

/-- Embeds `DirectoryWatcher.__init__`: a fresh observer with no
scheduled handlers, `_running = False`. -/
def DirectoryWatcher.init : DirectoryWatcher := ⟨[], false⟩

/-- Embeds `DirectoryWatcher.watch`: builds a `CreationEventHandler`
for the directory and schedules it (recursively) on the observer.
Every call appends a fresh registration; nothing is merged. -/
def DirectoryWatcher.watch (w : DirectoryWatcher) (directory : PyPath)
    (cb : Nat) : DirectoryWatcher :=
  ⟨w.handlers ++ [⟨directory, cb⟩], w.running⟩

/-- Embeds `DirectoryWatcher.start`: `observer.start(); _running = True`. -/
def DirectoryWatcher.start (w : DirectoryWatcher) : DirectoryWatcher :=
  ⟨w.handlers, true⟩

/-- Embeds `DirectoryWatcher.stop`:
`observer.stop(); observer.join(); _running = False`. -/
def DirectoryWatcher.stop (w : DirectoryWatcher) : DirectoryWatcher :=
  ⟨w.handlers, false⟩

/-- Embeds `DirectoryWatcher.is_running`: returns `_running`. -/
def DirectoryWatcher.is_running (w : DirectoryWatcher) : Bool := w.running

/-- The creation events the handler for `watched_dir` emits for one raw
event, with a callback that returns normally. -/
def handlerCalls (watched_dir : PyPath) (e : FileSystemEvent) :
    List CreationEvent :=
  (on_created watched_dir (fun _ => none) e).calls

/-- Deliveries from one raw creation event (path text `s`, directory
flag `d`) to one scheduled watch: the observer routes a raw event to a
watch exactly when the event's path lies in the watch's (recursively
scheduled) subtree, and the watch's handler then filters and invokes
its own callback.  Each delivery is tagged with the callback that
received it. -/
def watchDeliveries (r : WatchReg) (s : Str) (d : Bool) :
    List (Nat × CreationEvent) :=
  if isWithin r.watched_dir (parsePath s)
  then (handlerCalls r.watched_dir ⟨.strPath s, d⟩).map (fun ev => (r.cb, ev))
  else []

/-- Observable actions of the notification subsystem while the engine
is running. -/
inductive ObsAction
  | deliver (e : FileSystemEvent)
  | stopSignal
  | threadExit
  | joinReturn
deriving DecidableEq, Repr

/-- State of the observer's background notification thread: whether the
thread is still alive and whether `Observer.stop()` has been called. -/
structure ObsState where
  alive : Bool
  stopRequested : Bool
deriving DecidableEq, Repr

/-- The observer state right after `Observer.start()`: the notification
thread is alive and no stop has been requested. -/
def obsStart : ObsState := ⟨true, false⟩

/-- One step of the notification subsystem, embedding the threading
semantics `DirectoryWatcher.stop` relies on: a raw event is dispatched
(`deliver`) only by the live notification thread; `Observer.stop()`
(`stopSignal`) records the stop request; the thread terminates
(`threadExit`) only after a stop request; and `Observer.join()`
(`joinReturn`) returns only once the thread has terminated.
`DirectoryWatcher.stop` performs `stopSignal` and then blocks until its
`joinReturn`. -/
def obsStep (s : ObsState) : ObsAction → Option ObsState
  | .deliver _ => if s.alive then some s else none
  | .stopSignal => some ⟨s.alive, true⟩
  | .threadExit => if s.alive && s.stopRequested then some ⟨false, true⟩ else none
  | .joinReturn => if s.alive then none else some s

/-- Run a sequence of actions from a state; `some` exactly when the
sequence is a feasible trace of the subsystem. -/
def obsRun (s : ObsState) : List ObsAction → Option ObsState
  | [] => some s
  | a :: rest =>
    match obsStep s a with
    | none => none
    | some s2 => obsRun s2 rest

/-- The trace segment of one `DirectoryWatcher.stop()` call: it begins
with the `Observer.stop()` signal and ends when `Observer.join()`
returns (events may still be dispatched in between, while the thread
winds down). -/
def stopCallSegment (t : List ObsAction) : Prop :=
  ∃ mid, t = ObsAction.stopSignal :: mid ++ [ObsAction.joinReturn]

/-- Embeds the registration loop of `cmd_watch` in `main.py`:
for each directory, `if not directory.is_dir(): logger.error(...);
return 1` — modelled as `.error (directory, watcher-so-far)` — else
`watcher.watch(directory, handle_created)`; when the loop completes the
command goes on to `watcher.start()` with the accumulated watcher
(`.ok`).  `is_dir` abstracts `Path.is_dir()` and `cb` is the
`handle_created` callback. -/
def cmd_watch_register (is_dir : PyPath → Bool) (cb : Nat) :
    List PyPath → DirectoryWatcher →
    Except (PyPath × DirectoryWatcher) DirectoryWatcher
  | [], w => .ok w
  | directory :: rest, w =>
    if is_dir directory then
      cmd_watch_register is_dir cb rest (w.watch directory cb)
    else .error (directory, w)

/-- Embeds `loader.Config`: the application configuration. -/
structure Config where
  directories : List Str
deriving DecidableEq, Repr

/-- The filesystem as `load_config` observes it: whether a path exists
(`Path.exists()`), and the value `data.get("directories", [])` would
produce after `tomllib.load` on an existing file (the `get` default
`[]` is already folded in). -/
structure ConfigFs where
  exists_file : PyPath → Bool
  directories : PyPath → List Str

/-- The exception `load_config` can raise. -/
inductive LoaderErr
  | FileNotFoundError (p : PyPath)
deriving DecidableEq, Repr

/-- Embeds `loader.load_config`: with no explicit path, use the default
location and return an empty `Config` when that file is missing; with
an explicit path, raise `FileNotFoundError` when it is missing;
otherwise parse the file and read its `directories` key. -/
def load_config (fs : ConfigFs) (default_config_path : PyPath)
    (config_path : Option PyPath) : Except LoaderErr Config :=
  match config_path with
  | none =>
    if fs.exists_file default_config_path = false then .ok ⟨[]⟩
    else .ok ⟨fs.directories default_config_path⟩
  | some p =>
    if fs.exists_file p = false then .error (.FileNotFoundError p)
    else .ok ⟨fs.directories p⟩

/-! ## Helper lemmas -/

/-- Behaviour of the handler on any event whose subject path decodes:
it reduces to the parent-directory filter. -/
theorem on_created_decoded (wd : PyPath) (cb : CreationEvent → Option PyErr)
    (e : FileSystemEvent) (s : Str) (h : srcText? e.src_path = some s) :
    on_created wd cb e =
      if (parsePath s).parent = wd then
        ⟨[⟨parsePath s, if e.is_directory then ItemType.DIR else ItemType.FILE⟩],
          cb ⟨parsePath s, if e.is_directory then ItemType.DIR else ItemType.FILE⟩⟩
      else ⟨[], none⟩ := by
  unfold on_created
  rw [h]
  by_cases hp : (parsePath s).parent = wd <;> simp [hp]

/-- A watch scheduled on a path receives the events of its children:
`p` lies within the subtree of its own parent. -/
theorem isWithin_parent (p : PyPath) : isWithin p.parent p = true := by
  unfold isWithin PyPath.parent
  by_cases he : p.parts = []
  · rw [if_pos he]
    simp
  · rw [if_neg he]
    simp
    exact List.dropLast_prefix _

/-- Running a concatenated action sequence is running the two halves in
order. -/
theorem obsRun_append (t1 : List ObsAction) : ∀ (s : ObsState) (t2 : List ObsAction),
    obsRun s (t1 ++ t2) = (obsRun s t1).bind (fun s1 => obsRun s1 t2) := by
  induction t1 with
  | nil => intro s t2; rfl
  | cons a rest ih =>
    intro s t2
    show (match obsStep s a with
          | none => none
          | some s2 => obsRun s2 (rest ++ t2)) = _
    cases h : obsStep s a with
    | none => simp [obsRun, h]
    | some s2 => simp [obsRun, h, ih s2 t2]

/-- Once the notification thread has terminated, a feasible trace
contains no further delivery and the thread stays terminated. -/
theorem obsRun_dead (t : List ObsAction) : ∀ (s s2 : ObsState),
    s.alive = false → obsRun s t = some s2 →
    s2.alive = false ∧ ∀ e, ObsAction.deliver e ∉ t := by
  induction t with
  | nil =>
    intro s s2 ha hr
    simp [obsRun] at hr
    subst hr
    exact ⟨ha, by simp⟩
  | cons a rest ih =>
    intro s s2 ha hr
    cases a with
    | deliver e => simp [obsRun, obsStep, ha] at hr
    | stopSignal =>
      simp only [obsRun, obsStep] at hr
      have hres := ih ⟨s.alive, true⟩ s2 ha hr
      refine ⟨hres.1, fun e hmem => ?_⟩
      rcases List.mem_cons.mp hmem with h1 | h1
      · exact ObsAction.noConfusion h1
      · exact hres.2 e h1
    | threadExit => simp [obsRun, obsStep, ha] at hr
    | joinReturn =>
      simp [obsRun, obsStep, ha] at hr
      have hres := ih s s2 ha hr
      refine ⟨hres.1, fun e hmem => ?_⟩
      rcases List.mem_cons.mp hmem with h1 | h1
      · exact ObsAction.noConfusion h1
      · exact hres.2 e h1

/-- A feasible trace ending in a `joinReturn` ends with the
notification thread terminated: `join` returns only after thread
death. -/
theorem obsRun_joinReturn_last (t : List ObsAction) (s sm : ObsState)
    (h : obsRun s (t ++ [ObsAction.joinReturn]) = some sm) : sm.alive = false := by
  rw [obsRun_append] at h
  cases hh : obsRun s t with
  | none => rw [hh] at h; simp at h
  | some sx =>
    rw [hh] at h
    simp only [Option.some_bind] at h
    by_cases hal : sx.alive = true
    · simp [obsRun, obsStep, hal] at h
    · have hal2 : sx.alive = false := by
        cases hx : sx.alive
        · rfl
        · exact absurd hx hal
      simp [obsRun, obsStep, hal2] at h
      rw [← h]
      exact hal2

/-! ## Claims -/

/-- Claim C1: a raw creation event whose (decoded) path has parent
byte-for-byte equal to the registered watch root yields exactly one
`CreationEvent` (one callback invocation); an event at depth two or
deeper below the root, or outside it — anything whose parent differs
from the root — yields none. -/
theorem direct_child_filter (wd : PyPath) (cb : CreationEvent → Option PyErr)
    (e : FileSystemEvent) (s : Str) (h : srcText? e.src_path = some s) :
    ((parsePath s).parent = wd →
      (on_created wd cb e).calls =
        [⟨parsePath s, if e.is_directory then ItemType.DIR else ItemType.FILE⟩])
    ∧ ((parsePath s).parent ≠ wd → (on_created wd cb e).calls = [])
    ∧ (∀ extra : List Str, 2 ≤ extra.length →
        (parsePath s).parts = wd.parts ++ extra →
        (on_created wd cb e).calls = []) := by
  have hd := on_created_decoded wd cb e s h
  refine ⟨fun hp => by rw [hd, if_pos hp], fun hp => by rw [hd, if_neg hp], ?_⟩
  intro extra h2 hparts
  have hlen : (parsePath s).parts.length = wd.parts.length + extra.length := by
    rw [hparts, List.length_append]
  have hp : (parsePath s).parent ≠ wd := by
    intro heq
    have hne : (parsePath s).parts ≠ [] := by
      intro h0
      rw [h0] at hlen
      simp at hlen
      omega
    unfold PyPath.parent at heq
    rw [if_neg hne] at heq
    have hdrop := congrArg PyPath.parts heq
    simp at hdrop
    have hl2 := congrArg List.length hdrop
    rw [List.length_dropLast, hlen] at hl2
    omega
  rw [hd, if_neg hp]

/-- Witness for C1: creating `/w/x` under the root `/w` emits exactly
one `CreationEvent` for it. -/
theorem direct_child_filter_witness :
    (on_created ⟨true, [['w']]⟩ (fun _ => none)
        ⟨RawPath.strPath ['/', 'w', '/', 'x'], false⟩).calls
      = [⟨parsePath ['/', 'w', '/', 'x'],
          if (false : Bool) then ItemType.DIR else ItemType.FILE⟩] :=
  (direct_child_filter ⟨true, [['w']]⟩ (fun _ => none)
      ⟨RawPath.strPath ['/', 'w', '/', 'x'], false⟩ ['/', 'w', '/', 'x'] rfl).1
    (by decide)

/-- Counterexample to claim C2 as stated: on an undecodable `bytes`
subject path the handler does not silently discard — `bytes.decode()`
raises and the `UnicodeDecodeError` escapes the handler. -/
theorem undecodable_event_raises_cex :
    (on_created ⟨true, [['w']]⟩ (fun _ => none)
        ⟨RawPath.bytesPath [255], false⟩).exc = some PyErr.UnicodeDecodeError := by
  decide

/-- Claim C2 (amended): on a raw event whose subject path is an
undecodable byte string the callback is never invoked, but the event is
not a silent discard: the decode error propagates out of the handler. -/
theorem undecodable_event_raises (wd : PyPath) (cb : CreationEvent → Option PyErr)
    (b : List Nat) (d : Bool) (h : decodeUtf8 b = none) :
    on_created wd cb ⟨RawPath.bytesPath b, d⟩ = ⟨[], some PyErr.UnicodeDecodeError⟩ := by
  unfold on_created
  simp [srcText?, h]

/-- Witness for C2 (amended): the byte `0xFF` is undecodable and makes
the handler raise with no callback invocation. -/
theorem undecodable_event_raises_witness :
    decodeUtf8 [255] = none ∧
      on_created ⟨true, [['w']]⟩ (fun _ => none) ⟨RawPath.bytesPath [255], true⟩
        = ⟨[], some PyErr.UnicodeDecodeError⟩ :=
  ⟨by decide,
    undecodable_event_raises ⟨true, [['w']]⟩ (fun _ => none) [255] true (by decide)⟩

/-- Claim C4: `is_running` is `false` on a freshly constructed watcher,
`true` after `start()`, `false` after `stop()`, and `watch()` never
changes it. -/
theorem lifecycle_is_running :
    DirectoryWatcher.init.is_running = false
    ∧ (∀ (w : DirectoryWatcher) (d : PyPath) (c : Nat),
        (w.watch d c).is_running = w.is_running)
    ∧ (∀ w : DirectoryWatcher, w.start.is_running = true)
    ∧ (∀ w : DirectoryWatcher, w.stop.is_running = false) :=
  ⟨rfl, fun _ _ _ => rfl, fun _ => rfl, fun _ => rfl⟩

/-- Claim C5: for a qualifying creation event the emitted tag is
`ItemType.DIR` exactly when the raw event's directory flag is set,
`ItemType.FILE` otherwise, and the path handed to the callback is the
created item's path. -/
theorem creation_type_tag (wd : PyPath) (cb : CreationEvent → Option PyErr)
    (src : RawPath) (s : Str) (h : srcText? src = some s)
    (hm : (parsePath s).parent = wd) :
    (on_created wd cb ⟨src, true⟩).calls = [⟨parsePath s, ItemType.DIR⟩]
    ∧ (on_created wd cb ⟨src, false⟩).calls = [⟨parsePath s, ItemType.FILE⟩] := by
  constructor
  · rw [on_created_decoded wd cb ⟨src, true⟩ s h, if_pos hm]
    simp
  · rw [on_created_decoded wd cb ⟨src, false⟩ s h, if_pos hm]
    simp

/-- Witness for C5: a directory created at `/w/x` is tagged
`ItemType.DIR`. -/
theorem creation_type_tag_witness :
    (on_created ⟨true, [['w']]⟩ (fun _ => none)
        ⟨RawPath.strPath ['/', 'w', '/', 'x'], true⟩).calls
      = [⟨parsePath ['/', 'w', '/', 'x'], ItemType.DIR⟩] :=
  (creation_type_tag ⟨true, [['w']]⟩ (fun _ => none)
      (RawPath.strPath ['/', 'w', '/', 'x']) ['/', 'w', '/', 'x'] rfl (by decide)).1

/-- Counterexample to claim C8 as stated: the handler body invokes the
callback with no surrounding `try`/`except`, so a raising callback is
not trapped at the dispatch boundary — its exception escapes. -/
theorem callback_exc_escapes_cex :
    (on_created ⟨true, [['w']]⟩ (fun _ => some (PyErr.CallbackExc 7))
        ⟨RawPath.strPath ['/', 'w', '/', 'x'], false⟩).exc
      = some (PyErr.CallbackExc 7) := by
  decide

/-- Claim C8 (amended): an exception raised by the registered callback
propagates unchanged out of the event handler (nothing traps it at the
dispatch boundary). -/
theorem callback_exc_propagates (wd : PyPath) (cb : CreationEvent → Option PyErr)
    (e : FileSystemEvent) (s : Str) (err : PyErr)
    (h : srcText? e.src_path = some s) (hm : (parsePath s).parent = wd)
    (hcb : cb ⟨parsePath s,
      if e.is_directory then ItemType.DIR else ItemType.FILE⟩ = some err) :
    (on_created wd cb e).exc = some err := by
  rw [on_created_decoded wd cb e s h, if_pos hm]
  exact hcb

/-- Witness for C8 (amended): a callback raising on `/w/y` makes the
handler end with that very exception. -/
theorem callback_exc_propagates_witness :
    (on_created ⟨true, [['w']]⟩ (fun _ => some (PyErr.CallbackExc 3))
        ⟨RawPath.strPath ['/', 'w', '/', 'y'], false⟩).exc
      = some (PyErr.CallbackExc 3) :=
  callback_exc_propagates ⟨true, [['w']]⟩ (fun _ => some (PyErr.CallbackExc 3))
    ⟨RawPath.strPath ['/', 'w', '/', 'y'], false⟩ ['/', 'w', '/', 'y']
    (PyErr.CallbackExc 3) rfl (by decide) rfl

/-- Claim C9: a raw event with a `bytes` subject path that decodes to
`s` is processed exactly like the same event with the `str` subject
path `s` — same emission or discard, same callback invocation. -/
theorem bytes_str_path_equiv (wd : PyPath) (cb : CreationEvent → Option PyErr)
    (b : List Nat) (s : Str) (d : Bool) (h : decodeUtf8 b = some s) :
    on_created wd cb ⟨RawPath.bytesPath b, d⟩
      = on_created wd cb ⟨RawPath.strPath s, d⟩ := by
  unfold on_created
  simp [srcText?, h]

/-- Witness for C9: the UTF-8 bytes of `/w/a` are handled exactly like
the string `/w/a`. -/
theorem bytes_str_path_equiv_witness :
    decodeUtf8 [47, 119, 47, 97] = some ['/', 'w', '/', 'a'] ∧
      on_created ⟨true, [['w']]⟩ (fun _ => none)
          ⟨RawPath.bytesPath [47, 119, 47, 97], false⟩
        = on_created ⟨true, [['w']]⟩ (fun _ => none)
            ⟨RawPath.strPath ['/', 'w', '/', 'a'], false⟩ :=
  ⟨by decide,
    bytes_str_path_equiv ⟨true, [['w']]⟩ (fun _ => none) [47, 119, 47, 97]
      ['/', 'w', '/', 'a'] false (by decide)⟩

/-- Claim C10: `load_config` with no explicit path returns an empty
configuration when the default config file is missing (it does not
raise), while an explicit missing path raises `FileNotFoundError` and
produces no configuration. -/
theorem load_config_missing_file (fs : ConfigFs) (dflt : PyPath) :
    (fs.exists_file dflt = false → load_config fs dflt none = .ok ⟨[]⟩)
    ∧ (∀ p : PyPath, fs.exists_file p = false →
        load_config fs dflt (some p) = .error (LoaderErr.FileNotFoundError p)) := by
  constructor
  · intro h
    simp [load_config, h]
  · intro p h
    simp [load_config, h]

/-- Witness for C10: on an empty filesystem, the default location
yields `Config([])` and an explicit path raises. -/
theorem load_config_missing_file_witness :
    load_config ⟨fun _ => false, fun _ => []⟩ ⟨true, [['c']]⟩ none = .ok ⟨[]⟩
    ∧ load_config ⟨fun _ => false, fun _ => []⟩ ⟨true, [['c']]⟩ (some ⟨true, [['x']]⟩)
        = .error (LoaderErr.FileNotFoundError ⟨true, [['x']]⟩) :=
  ⟨(load_config_missing_file ⟨fun _ => false, fun _ => []⟩ ⟨true, [['c']]⟩).1 rfl,
    (load_config_missing_file ⟨fun _ => false, fun _ => []⟩ ⟨true, [['c']]⟩).2
      ⟨true, [['x']]⟩ rfl⟩

/-- Claim C3: in every feasible execution, once a `stop()` call has
returned — its trace segment runs from the `Observer.stop()` signal to
the return of `Observer.join()`, which happens only after the
notification thread has terminated — no creation event is delivered
any more. -/
theorem no_delivery_after_stop (pre stopT post : List ObsAction) (s2 : ObsState)
    (hstop : stopCallSegment stopT)
    (hrun : obsRun obsStart (pre ++ stopT ++ post) = some s2) :
    ∀ e : FileSystemEvent, ObsAction.deliver e ∉ post := by
  obtain ⟨mid, rfl⟩ := hstop
  rw [obsRun_append] at hrun
  cases hps : obsRun obsStart (pre ++ ((ObsAction.stopSignal :: mid) ++ [ObsAction.joinReturn])) with
  | none => rw [hps] at hrun; simp at hrun
  | some sm =>
    rw [hps] at hrun
    simp only [Option.some_bind] at hrun
    have hsm : sm.alive = false := by
      have hps2 : obsRun obsStart
          ((pre ++ (ObsAction.stopSignal :: mid)) ++ [ObsAction.joinReturn])
          = some sm := by
        simpa [List.append_assoc] using hps
      exact obsRun_joinReturn_last _ _ _ hps2
    exact fun e => (obsRun_dead post sm s2 hsm hrun).2 e

/-- Witness for C3: a concrete feasible trace — deliver, stop, thread
exit, join — admits no delivery after the join has returned. -/
theorem no_delivery_after_stop_witness :
    ObsAction.deliver ⟨RawPath.strPath ['a'], false⟩
      ∉ ([ObsAction.joinReturn] : List ObsAction) :=
  no_delivery_after_stop
    [ObsAction.deliver ⟨RawPath.strPath ['a'], false⟩]
    [ObsAction.stopSignal, ObsAction.threadExit, ObsAction.joinReturn]
    [ObsAction.joinReturn] ⟨false, true⟩
    ⟨[ObsAction.threadExit], rfl⟩ (by decide)
    ⟨RawPath.strPath ['a'], false⟩

/-- Claim C6: registrations are independent — two `watch` calls for one
path keep both handlers — and with `n` pairwise non-nested roots, one
qualifying creation per root is delivered exactly once per root, to
that root's own callback, with the path created under that root: `n`
creations, `n` deliveries in total. -/
theorem independent_roots_multiplicity (n : ℕ) (reg : Fin n → WatchReg)
    (s : Fin n → Str) (d : Fin n → Bool)
    (hdiag : ∀ i, (parsePath (s i)).parent = (reg i).watched_dir)
    (hoff : ∀ i j, i ≠ j → isWithin ((reg i).watched_dir) (parsePath (s j)) = false) :
    (∀ i, watchDeliveries (reg i) (s i) (d i)
        = [((reg i).cb, ⟨parsePath (s i),
            if d i then ItemType.DIR else ItemType.FILE⟩)])
    ∧ (∑ i : Fin n, ∑ j : Fin n,
        (watchDeliveries (reg i) (s j) (d j)).length) = n
    ∧ (∀ (w : DirectoryWatcher) (dir : PyPath) (c1 c2 : Nat),
        ((w.watch dir c1).watch dir c2).handlers
          = w.handlers ++ [⟨dir, c1⟩, ⟨dir, c2⟩]) := by
  have hone : ∀ i, watchDeliveries (reg i) (s i) (d i)
      = [((reg i).cb, ⟨parsePath (s i),
          if d i then ItemType.DIR else ItemType.FILE⟩)] := by
    intro i
    unfold watchDeliveries
    have hw : isWithin ((reg i).watched_dir) (parsePath (s i)) = true := by
      rw [← hdiag i]
      exact isWithin_parent _
    rw [if_pos hw]
    unfold handlerCalls
    rw [on_created_decoded ((reg i).watched_dir) (fun _ => none)
        ⟨RawPath.strPath (s i), d i⟩ (s i) rfl, if_pos (hdiag i)]
    simp
  have hzero : ∀ i j, i ≠ j → watchDeliveries (reg i) (s j) (d j) = [] := by
    intro i j hij
    unfold watchDeliveries
    simp [hoff i j hij]
  refine ⟨hone, ?_, fun w dir c1 c2 => by simp [DirectoryWatcher.watch]⟩
  have hterm : ∀ i j : Fin n,
      (watchDeliveries (reg i) (s j) (d j)).length = if i = j then 1 else 0 := by
    intro i j
    by_cases hij : i = j
    · subst hij
      rw [hone i]
      simp
    · rw [hzero i j hij]
      simp [hij]
  calc (∑ i : Fin n, ∑ j : Fin n, (watchDeliveries (reg i) (s j) (d j)).length)
      = ∑ i : Fin n, ∑ j : Fin n, (if i = j then 1 else 0) := by
        refine Finset.sum_congr rfl (fun i _ => ?_)
        exact Finset.sum_congr rfl (fun j _ => hterm i j)
    _ = ∑ _i : Fin n, 1 := by
        refine Finset.sum_congr rfl (fun i _ => ?_)
        simp
    _ = n := by simp

/-- Witness for C6: two disjoint roots `/a` and `/b`, one creation in
each, yield exactly two deliveries. -/
theorem independent_roots_multiplicity_witness :
    (∑ i : Fin 2, ∑ j : Fin 2,
        (watchDeliveries (![⟨⟨true, [['a']]⟩, 0⟩, ⟨⟨true, [['b']]⟩, 1⟩] i)
          (![['/', 'a', '/', 'x'], ['/', 'b', '/', 'y']] j)
          (![false, true] j)).length) = 2 :=
  (independent_roots_multiplicity 2
      ![⟨⟨true, [['a']]⟩, 0⟩, ⟨⟨true, [['b']]⟩, 1⟩]
      ![['/', 'a', '/', 'x'], ['/', 'b', '/', 'y']]
      ![false, true] (by decide) (by decide)).2.1

/-- Counterexample to claim C7 as stated: with roots `/g`, `/b`, `/h`
where `/b` is not a directory, the registration loop aborts the whole
command at `/b` (exit code 1); the valid sibling `/h` is never watched
— only `/g`, registered before the failure, is. -/
theorem invalid_root_aborts_cex :
    cmd_watch_register (fun p => decide (p ≠ ⟨true, [['b']]⟩)) 0
        [⟨true, [['g']]⟩, ⟨true, [['b']]⟩, ⟨true, [['h']]⟩] DirectoryWatcher.init
      = .error (⟨true, [['b']]⟩, DirectoryWatcher.init.watch ⟨true, [['g']]⟩ 0)
    ∧ (DirectoryWatcher.init.watch ⟨true, [['g']]⟩ 0).handlers
        = [⟨⟨true, [['g']]⟩, 0⟩] :=
  ⟨rfl, rfl⟩

/-- Claim C7 (amended): the `cmd_watch` loop logs the first root that
is not a directory and immediately aborts the whole command with exit
code 1; only the valid roots before it are registered and the sibling
roots after it are not watched. -/
theorem invalid_root_aborts (is_dir : PyPath → Bool) (cb : Nat)
    (w : DirectoryWatcher) (pre : List PyPath) (bad : PyPath) (post : List PyPath)
    (hpre : ∀ p ∈ pre, is_dir p = true) (hbad : is_dir bad = false) :
    cmd_watch_register is_dir cb (pre ++ bad :: post) w
      = .error (bad, pre.foldl (fun acc p => acc.watch p cb) w) := by
  revert hpre
  induction pre generalizing w with
  | nil =>
    intro _
    simp [cmd_watch_register, hbad]
  | cons p rest ih =>
    intro hpre
    have hp : is_dir p = true := hpre p (List.mem_cons_self _ _)
    simp only [List.cons_append, List.foldl_cons]
    show (if is_dir p = true then
        cmd_watch_register is_dir cb (rest ++ bad :: post) (w.watch p cb)
      else .error (p, w)) = _
    rw [if_pos hp]
    exact ih (w.watch p cb) (fun q hq => hpre q (List.mem_cons_of_mem _ hq))

/-- Witness for C7 (amended): the loop on `/g`, `/b` (invalid), `/h`
stops at `/b` having registered only `/g`. -/
theorem invalid_root_aborts_witness :
    cmd_watch_register (fun p => decide (p ≠ ⟨true, [['b']]⟩)) 5
        [⟨true, [['g']]⟩, ⟨true, [['b']]⟩, ⟨true, [['h']]⟩] DirectoryWatcher.init
      = .error (⟨true, [['b']]⟩,
          [(⟨true, [['g']]⟩ : PyPath)].foldl
            (fun acc p => acc.watch p 5) DirectoryWatcher.init) :=
  invalid_root_aborts (fun p => decide (p ≠ ⟨true, [['b']]⟩)) 5
    DirectoryWatcher.init [⟨true, [['g']]⟩] ⟨true, [['b']]⟩ [⟨true, [['h']]⟩]
    (by decide) (by decide)

end Housekeeper
